import Mathlib

/-!
Verification development for the artwork-drawing app in `streamlit_app.py`.

The file shallowly embeds the two pieces of logic the specification documents:

* the Artwork Fetcher `get_artworks` (API result filtering/mapping, caching,
  failure handling), and
* the Canvas Compositor (the export block guarded by
  `canvas_result.image_data is not None and ... shape[2] == 4`),

together with the session-state background handling
(`st.session_state.background_image_pil`).

Machine conventions: pixel channels are `Nat` values in `0 ..= 255`; fallible
Python code is embedded as `Except Unit` where `Except.error ()` stands for an
uncaught Python exception (e.g. `KeyError`).
-/

set_option autoImplicit false
set_option maxRecDepth 8192

namespace ArtApp

/-! ## Artwork Fetcher -/

/-- A display-ready record produced by `get_artworks`
(`{"title": ..., "artist": ..., "image_url": ...}` in the source). -/
structure ArtworkRecord where
  title : String
  artist : String
  image_url : String
deriving DecidableEq, Repr

/-- One object of the JSON `data` array returned by the search endpoint.
Each field is `none` when the corresponding key is absent from the object
(Python `item['k']` then raises `KeyError`; `item.get('k')` returns `None`). -/
structure ApiItem where
  title : Option String
  artist_title : Option String
  image_id : Option String
deriving DecidableEq, Repr

/-- A well-formed JSON response body. `data? = none` models a body without a
`'data'` key, on which `response.json()['data']` raises `KeyError`. -/
structure JsonBody where
  data? : Option (List ApiItem)
deriving DecidableEq, Repr

/-- Outcome of the transport layer for one request: `failure` is any
`requests.exceptions.RequestException` (connection error, or an HTTP error
status raised by `response.raise_for_status()`, or invalid JSON, which in
`requests` is a `RequestException` subclass); `success` carries the decoded
JSON body. -/
inductive Transport where
  | failure : Transport
  | success (body : JsonBody) : Transport

/-- Python truthiness of `item.get('image_id')`: a missing key yields `None`
(falsy) and an empty string is falsy, so only a present, non-empty image
identifier passes the comprehension filter `if item.get('image_id')`. -/
def truthyImageId : Option String → Bool
  | none => false
  | some s => s ≠ ""

/-- The fixed IIIF URL template applied to an image identifier
(`f"https://www.artic.edu/iiif/2/{item['image_id']}/full/400,/0/default.jpg"`). -/
def imageUrlOf (iid : String) : String :=
  "https://www.artic.edu/iiif/2/" ++ iid ++ "/full/400,/0/default.jpg"

/-- The list comprehension of `get_artworks`:
`[{"title": item['title'], "artist": item['artist_title'], "image_url": f"..{item['image_id']}.."}
  for item in data if item.get('image_id')]`.
Items failing the truthiness filter are skipped without touching their other
keys; a kept item missing `'title'` or `'artist_title'` raises `KeyError`,
embedded as `Except.error ()`. -/
def buildRecords : List ApiItem → Except Unit (List ArtworkRecord)
  | [] => .ok []
  | item :: rest =>
    if truthyImageId item.image_id then
      match item.title, item.artist_title, item.image_id with
      | some t, some a, some iid => (buildRecords rest).map (fun l => ⟨t, a, imageUrlOf iid⟩ :: l)
      | _, _, _ => .error ()
    else
      buildRecords rest

/-- What one evaluation of the body of `get_artworks` produces: `result` is
the returned list (`.ok`) or an uncaught exception (`.error ()`), and
`errorNotice` records whether `st.error(...)` was shown. -/
structure FetchOutcome where
  result : Except Unit (List ArtworkRecord)
  errorNotice : Bool

/-- The body of `get_artworks` (caching handled separately): a transport
failure is caught by `except requests.exceptions.RequestException`, shows
`st.error` and returns `[]`; a successful transport reads
`response.json()['data']` (raising `KeyError` when the key is absent — not a
`RequestException`, hence uncaught) and runs the comprehension. -/
def get_artworks : Transport → FetchOutcome
  | .failure => ⟨.ok [], true⟩
  | .success body =>
    match body.data? with
    | none => ⟨.error (), false⟩
    | some items => ⟨buildRecords items, false⟩

/-- The record built from a kept item, spelled with `Option.getD` so it is
total; it coincides with the comprehension output whenever the item has both
the `'title'` and the `'artist_title'` keys. -/
def mkRecord (i : ApiItem) : ArtworkRecord :=
  ⟨i.title.getD "", i.artist_title.getD "", imageUrlOf (i.image_id.getD "")⟩

/-! ### The `@st.cache_data` cache -/

/-- The in-process cache of `@st.cache_data`, keyed by the exact
artist-name string. -/
abbrev CacheT := List (String × List ArtworkRecord)

/-- Association lookup by exact string key. -/
def assocFind : CacheT → String → Option (List ArtworkRecord)
  | [], _ => none
  | (k, v) :: rest, q => if k = q then some v else assocFind rest q

/-- One call through the `@st.cache_data` wrapper: a cache hit returns the
stored sequence without touching the network; a miss evaluates the function
body against the network environment `net`, caches a normal return, and does
not cache an uncaught exception. The `Bool` reports whether a network request
was issued. -/
def cachedCall (net : String → Transport) (c : CacheT) (k : String) :
    CacheT × Except Unit (List ArtworkRecord) × Bool :=
  match assocFind c k with
  | some v => (c, .ok v, false)
  | none =>
    match (get_artworks (net k)).result with
    | .ok v => ((k, v) :: c, .ok v, true)
    | .error e => (c, .error e, true)

/-- A trace of fetch calls: for each call, the key, the result, and whether a
network request was issued. -/
abbrev TraceT := List (String × Except Unit (List ArtworkRecord) × Bool)

/-- Run a sequence of fetch calls through the cache, threading the cache
state and collecting the trace. -/
def runCalls (net : String → Transport) (c : CacheT) : List String → CacheT × TraceT
  | [] => (c, [])
  | k :: rest =>
    let step := cachedCall net c k
    let next := runCalls net step.1 rest
    (next.1, (k, step.2.1, step.2.2) :: next.2)

/-- Number of trace entries for key `k` that issued a network request. -/
def netCount (k : String) : TraceT → Nat
  | [] => 0
  | e :: rest => (if e.1 = k ∧ e.2.2 = true then 1 else 0) + netCount k rest

/-! ## Canvas Compositor

The export block of the source:

```python
if canvas_result.image_data is not None and canvas_result.image_data.shape[2] == 4:
    img_data = canvas_result.image_data
    if st.session_state.background_image_pil:
        bg_img = st.session_state.background_image_pil.resize((img_data.shape[1], img_data.shape[0]))
        final_img = Image.alpha_composite(bg_img.convert('RGBA'), Image.fromarray(img_data))
    else:
        final_img = Image.new('RGB', (img_data.shape[1], img_data.shape[0]), 'white')
        final_img.paste(Image.fromarray(img_data), mask=Image.fromarray(img_data))
```
-/

/-- An RGBA pixel, channels in `0 ..= 255`. -/
structure Pixel where
  r : Nat
  g : Nat
  b : Nat
  a : Nat
deriving DecidableEq, Repr

/-- An RGB pixel (no alpha channel), channels in `0 ..= 255`. -/
structure RGB where
  r : Nat
  g : Nat
  b : Nat
deriving DecidableEq, Repr

/-- A 4-channel raster image: dimensions plus a pixel map (meaningful on
`x < width`, `y < height`). -/
structure Img where
  width : Nat
  height : Nat
  pix : Nat → Nat → Pixel

/-- A 3-channel raster image, e.g. a decoded background JPEG (PIL mode
`RGB`) or the `Image.new('RGB', ...)` base of the no-background branch. -/
structure RGBImg where
  width : Nat
  height : Nat
  pix : Nat → Nat → RGB

/-- `PIL.Image.resize((w, h))` on the background. The claims depend only on
the output dimensions and on the resize being applied to the background, so
the resampling kernel is embedded as nearest-neighbour sampling (PIL's
default bicubic kernel differs only in how source pixels are weighted). -/
def resizeRGB (img : RGBImg) (w h : Nat) : RGBImg :=
  ⟨w, h, fun x y => img.pix (x * img.width / w) (y * img.height / h)⟩

/-- `convert('RGBA')` on a 3-channel image: keep the colour channels and add
a fully opaque alpha channel. -/
def convertRGBA (img : RGBImg) : Img :=
  ⟨img.width, img.height, fun x y =>
    let p := img.pix x y
    ⟨p.r, p.g, p.b, 255⟩⟩

/-- One pixel of `PIL.Image.alpha_composite(dst, src)`: straight-alpha
"over" compositing, the source (canvas buffer) on top, with the exact
rational formula rounded to nearest (with channels scaled by 255,
`outA * 255 = srcA * 255 + dstA * (255 - srcA)` and
`outC = (srcC * srcA * 255 + dstC * dstA * (255 - srcA)) / (outA * 255)`).
PIL's fixed-point evaluation agrees with this exactly at the alpha extremes
0 and 255, the only points the specification's claims exercise. -/
def alphaCompositePixel (dst src : Pixel) : Pixel :=
  let outa255 := src.a * 255 + dst.a * (255 - src.a)
  if outa255 = 0 then ⟨0, 0, 0, 0⟩
  else
    ⟨(src.r * src.a * 255 + dst.r * dst.a * (255 - src.a) + outa255 / 2) / outa255,
     (src.g * src.a * 255 + dst.g * dst.a * (255 - src.a) + outa255 / 2) / outa255,
     (src.b * src.a * 255 + dst.b * dst.a * (255 - src.a) + outa255 / 2) / outa255,
     (outa255 + 127) / 255⟩

/-- `PIL.Image.alpha_composite(dst, src)` pointwise; PIL requires the two
images to share dimensions, and in the source both have the canvas buffer's
dimensions by construction. -/
def alpha_composite (dst src : Img) : Img :=
  ⟨src.width, src.height, fun x y => alphaCompositePixel (dst.pix x y) (src.pix x y)⟩

/-- `Image.new('RGB', (w, h), c)`: a solid-colour base image. -/
def newRGB (w h : Nat) (c : RGB) : RGBImg :=
  ⟨w, h, fun _ _ => c⟩

/-- The named colour `'white'`. -/
def white : RGB := ⟨255, 255, 255⟩

/-- One channel of `paste` with a mask: linear interpolation of destination
and source weighted by the mask value, rounded to nearest (exact at mask
values 0 and 255, where PIL's fixed-point rounding agrees). -/
def blendChan (d s m : Nat) : Nat :=
  (d * (255 - m) + s * m + 127) / 255

/-- `dst.paste(src, mask=src)` for an RGBA `src` pasted at the origin of an
RGB `dst` of the same size: PIL uses the alpha band of the RGBA mask image
as the mask, drops the alpha of the pasted source (converting it to the
destination's RGB mode), and blends each colour channel by the mask value —
0 leaves the destination, 255 copies the source. -/
def pasteMask (dst : RGBImg) (src : Img) : RGBImg :=
  ⟨dst.width, dst.height, fun x y =>
    let d := dst.pix x y
    let s := src.pix x y
    ⟨blendChan d.r s.r s.a, blendChan d.g s.g s.a, blendChan d.b s.b s.a⟩⟩

/-- The background branch of the export block: resize the background to the
buffer's width and height (`img_data.shape[1]`, `img_data.shape[0]`),
convert it to RGBA, and alpha-composite the buffer on top. -/
def exportWithBg (buf : Img) (bg : RGBImg) : Img :=
  alpha_composite (convertRGBA (resizeRGB bg buf.width buf.height)) buf

/-- The no-background branch of the export block: a solid white RGB base of
the buffer's dimensions, with the buffer pasted on top using its own alpha
channel as the mask. -/
def exportNoBg (buf : Img) : RGBImg :=
  pasteMask (newRGB buf.width buf.height white) buf

/-- The numpy array `canvas_result.image_data`: shape `(height, width,
channels)` plus the pixel data (meaningful when `channels = 4`). -/
structure RawCanvas where
  height : Nat
  width : Nat
  channels : Nat
  pix : Nat → Nat → Pixel

/-- The 4-channel buffer view of a raw canvas array. -/
def bufOfRaw (r : RawCanvas) : Img :=
  ⟨r.width, r.height, r.pix⟩

/-- The exported composite: RGBA when composited over a background, RGB when
pasted over the solid base. -/
inductive FinalImage where
  | withBg (img : Img) : FinalImage
  | noBg (img : RGBImg) : FinalImage

/-- The whole save block: the export path runs only under the guard
`canvas_result.image_data is not None and canvas_result.image_data.shape[2] == 4`;
otherwise no composite is produced. -/
def savePanel (cd : Option RawCanvas) (bg : Option RGBImg) : Option FinalImage :=
  match cd with
  | none => none
  | some raw =>
    if raw.channels = 4 then
      some (match bg with
        | some b => .withBg (exportWithBg (bufOfRaw raw) b)
        | none => .noBg (exportNoBg (bufOfRaw raw)))
    else
      none

/-! ## Background selection state -/

/-- The session state: `st.session_state.background_image_pil` is the
optional background image (`None` initially and after clearing). -/
structure AppSession where
  background_image_pil : Option RGBImg

/-- The "load as background" button handler: download the artwork's image
URL, decode it (`Image.open(BytesIO(response.content))`, embedded as the
environment `decode`), and assign it to the session state, replacing any
prior value. -/
def loadBackgroundAction (decode : String → RGBImg) (art : ArtworkRecord) (s : AppSession) :
    AppSession :=
  { s with background_image_pil := some (decode art.image_url) }

/-- The "clear background" button handler:
`st.session_state.background_image_pil = None`. -/
def clearBackgroundAction (s : AppSession) : AppSession :=
  { s with background_image_pil := none }

/-! ## Auxiliary predicates and sample inputs -/

/-- A cache is consistent with the network environment at key `k`: any
stored sequence is the one `get_artworks` computes for that key. -/
def goodCache (net : String → Transport) (k : String) (c : CacheT) : Prop :=
  ∀ v, assocFind c k = some v → (get_artworks (net k)).result = .ok v

/-- A fully opaque 2×2 sample canvas buffer. -/
def demoBuf : Img :=
  ⟨2, 2, fun _ _ => ⟨10, 20, 30, 255⟩⟩

/-- A fully transparent 2×2 sample canvas buffer. -/
def demoBufClear : Img :=
  ⟨2, 2, fun _ _ => ⟨10, 20, 30, 0⟩⟩

/-- A sample background of dimensions different from the buffer's. -/
def demoBg : RGBImg :=
  ⟨7, 5, fun _ _ => ⟨1, 2, 3⟩⟩

/-- A sample 3-channel canvas array (no alpha channel). -/
def demoRaw3 : RawCanvas :=
  ⟨500, 400, 3, fun _ _ => ⟨0, 0, 0, 0⟩⟩

/-- A sample `data` array: one complete result, one without an image
identifier, one with an empty image identifier. -/
def demoItems : List ApiItem :=
  [⟨some "Sunflowers", some "Vincent van Gogh", some "abc"⟩,
   ⟨some "Untitled", some "Vincent van Gogh", none⟩,
   ⟨some "Starry Night", some "Vincent van Gogh", some ""⟩]

/-- A sample network environment answering every query with `demoItems`. -/
def demoNet : String → Transport :=
  fun _ => .success ⟨some demoItems⟩

/-- A sample artwork record. -/
def demoArt : ArtworkRecord :=
  ⟨"Sunflowers", "Vincent van Gogh", imageUrlOf "abc"⟩

/-! ## Helper lemmas -/

/-- A fully opaque source pixel wins the straight-alpha blend outright,
whatever the destination pixel is. -/
theorem alphaCompositePixel_opaque (dst src : Pixel) (hs : src.a = 255) :
    alphaCompositePixel dst src = src := by
  obtain ⟨r, g, b, a⟩ := src
  simp only at hs
  subst hs
  unfold alphaCompositePixel
  norm_num
  refine ⟨?_, ?_, ?_⟩ <;> omega

/-- A fully transparent source pixel leaves a fully opaque destination pixel
unchanged under the straight-alpha blend. -/
theorem alphaCompositePixel_transparent (dst src : Pixel) (hd : dst.a = 255) (hs : src.a = 0) :
    alphaCompositePixel dst src = ⟨dst.r, dst.g, dst.b, 255⟩ := by
  unfold alphaCompositePixel
  rw [hs, hd]
  norm_num
  refine ⟨?_, ?_, ?_⟩ <;> omega

/-- A mask value of 255 copies the source channel. -/
theorem blendChan_full (d s : Nat) : blendChan d s 255 = s := by
  simp only [blendChan]
  omega

/-- A mask value of 0 keeps the destination channel. -/
theorem blendChan_zero (d s : Nat) : blendChan d s 0 = d := by
  simp only [blendChan]
  omega

/-- The comprehension of `get_artworks` keeps exactly the items with a
truthy image identifier, in order, mapping each to its record, provided
every kept item has the `'title'` and the `'artist_title'` keys. -/
theorem buildRecords_eq_filter_map (items : List ApiItem)
    (h : ∀ i ∈ items, truthyImageId i.image_id = true →
      i.title.isSome = true ∧ i.artist_title.isSome = true) :
    buildRecords items =
      .ok ((items.filter (fun i => truthyImageId i.image_id)).map mkRecord) := by
  induction items with
  | nil => rfl
  | cons item rest ih =>
    have hrest : ∀ i ∈ rest, truthyImageId i.image_id = true →
        i.title.isSome = true ∧ i.artist_title.isSome = true :=
      fun i hi => h i (List.mem_cons_of_mem _ hi)
    by_cases ht : truthyImageId item.image_id = true
    · obtain ⟨hT, hA⟩ := h item (List.mem_cons_self _ _) ht
      obtain ⟨t, hTt⟩ := Option.isSome_iff_exists.mp hT
      obtain ⟨a, hAa⟩ := Option.isSome_iff_exists.mp hA
      obtain ⟨iid, hIid⟩ : ∃ s, item.image_id = some s := by
        cases hI : item.image_id with
        | none => rw [hI] at ht; simp [truthyImageId] at ht
        | some s => exact ⟨s, rfl⟩
      rw [hIid] at ht
      simp [buildRecords, ht, hTt, hAa, hIid, ih hrest, List.filter_cons, mkRecord,
        Except.map]
    · have ht' : truthyImageId item.image_id = false := by
        simpa using ht
      simp [buildRecords, ht', ih hrest, List.filter_cons]

/-! ## Claim theorems -/

/-- C1, as frozen, is refuted by an API response whose single result object
has a non-empty image identifier but no `'title'` key: `get_artworks` then
raises an uncaught `KeyError` (embedded `.error ()`) rather than returning
the one-element record list the claim demands (N = M = 1 here). -/
theorem c1_counterexample :
    (get_artworks (.success ⟨some [⟨none, some "Vincent van Gogh", some "img-1"⟩]⟩)).result
      = .error () ∧
    (List.filter (fun i => truthyImageId i.image_id)
      [(⟨none, some "Vincent van Gogh", some "img-1"⟩ : ApiItem)]).length = 1 :=
  ⟨rfl, rfl⟩

/-- C1 (amended): for every API response whose data array consists of result
objects each of which, when it has a non-empty image identifier, also has
the `'title'` and the `'artist_title'` keys, `get_artworks` returns exactly
the records of the results with a non-empty image identifier, in response
order, each with the fixed template URL applied to its image identifier;
results lacking an image identifier are dropped, and no error notice is
shown. -/
theorem c1_fetch_filters_and_maps (items : List ApiItem)
    (h : ∀ i ∈ items, truthyImageId i.image_id = true →
      i.title.isSome = true ∧ i.artist_title.isSome = true) :
    get_artworks (.success ⟨some items⟩) =
      ⟨.ok ((items.filter (fun i => truthyImageId i.image_id)).map mkRecord), false⟩ := by
  show FetchOutcome.mk (buildRecords items) false = _
  rw [buildRecords_eq_filter_map items h]

/-- Witness for the amended C1 at a concrete three-item response (one
complete result, one without an image identifier, one with an empty one). -/
theorem c1_fetch_filters_and_maps_witness :
    get_artworks (.success ⟨some demoItems⟩) =
      ⟨.ok ((demoItems.filter (fun i => truthyImageId i.image_id)).map mkRecord), false⟩ :=
  c1_fetch_filters_and_maps demoItems (by decide)

/-- C7: a transport failure makes `get_artworks` return the empty list (no
exception escapes — execution continues) while showing the `st.error`
notice; the returned value is indistinguishable from that of a successful
response with no results, whose call shows no notice. -/
theorem c7_transport_failure_empty_with_notice :
    get_artworks .failure = ⟨.ok [], true⟩ ∧
    (get_artworks .failure).result = (get_artworks (.success ⟨some []⟩)).result ∧
    (get_artworks (.success ⟨some []⟩)).errorNotice = false :=
  ⟨rfl, rfl, rfl⟩

/-- C10: the `except` clause of `get_artworks` catches only
`requests.exceptions.RequestException`; a transport-successful but
structurally malformed body — missing `'data'`, or a kept result missing
`'title'` or `'artist_title'` — raises an uncaught exception (`.error ()`)
with no error notice, whereas a transport failure is the case that returns
`[]` with the notice. -/
theorem c10_malformed_body_raises :
    (get_artworks (.success ⟨none⟩)).result = .error () ∧
    (get_artworks (.success ⟨none⟩)).errorNotice = false ∧
    (get_artworks (.success ⟨some [⟨none, some "Vincent van Gogh", some "img-2"⟩]⟩)).result
      = .error () ∧
    (get_artworks (.success ⟨some [⟨some "Sunflowers", none, some "img-2"⟩]⟩)).result
      = .error () ∧
    (get_artworks (.success ⟨some [⟨some "Sunflowers", none, some "img-2"⟩]⟩)).errorNotice
      = false ∧
    (get_artworks .failure).result = .ok [] ∧
    (get_artworks .failure).errorNotice = true :=
  ⟨rfl, rfl, rfl, rfl, rfl, rfl, rfl⟩

/-- C2: for every pixel buffer all of whose pixels are fully opaque
(alpha = 255 everywhere in bounds), the exported image's colour data equals
the buffer's own colour data exactly — with a background present (the
background is fully occluded) and with no background present alike. -/
theorem c2_opaque_buffer_occludes (buf : Img) (bg : RGBImg)
    (h : ∀ x y, x < buf.width → y < buf.height → (buf.pix x y).a = 255) :
    ∀ x y, x < buf.width → y < buf.height →
      (exportWithBg buf bg).pix x y = buf.pix x y ∧
      (exportNoBg buf).pix x y =
        ⟨(buf.pix x y).r, (buf.pix x y).g, (buf.pix x y).b⟩ := by
  intro x y hx hy
  constructor
  · exact alphaCompositePixel_opaque _ _ (h x y hx hy)
  · show (⟨blendChan 255 (buf.pix x y).r (buf.pix x y).a,
          blendChan 255 (buf.pix x y).g (buf.pix x y).a,
          blendChan 255 (buf.pix x y).b (buf.pix x y).a⟩ : RGB) = _
    rw [h x y hx hy, blendChan_full, blendChan_full, blendChan_full]

/-- Witness for C2 at a concrete fully opaque 2×2 buffer and a 7×5
background. -/
theorem c2_opaque_buffer_occludes_witness :
    (exportWithBg demoBuf demoBg).pix 0 0 = demoBuf.pix 0 0 ∧
    (exportNoBg demoBuf).pix 0 0 =
      ⟨(demoBuf.pix 0 0).r, (demoBuf.pix 0 0).g, (demoBuf.pix 0 0).b⟩ :=
  c2_opaque_buffer_occludes demoBuf demoBg (fun _ _ _ _ => rfl) 0 0
    (by decide) (by decide)

/-- C3: for every pixel buffer all of whose pixels are fully transparent
(alpha = 0 everywhere in bounds), with a background present the exported
image equals the background resized to the buffer's dimensions exactly
(with the fully opaque alpha added by `convert('RGBA')`), and with no
background present it equals the solid white base fill at every pixel. -/
theorem c3_transparent_buffer_shows_background (buf : Img) (bg : RGBImg)
    (h : ∀ x y, x < buf.width → y < buf.height → (buf.pix x y).a = 0) :
    ∀ x y, x < buf.width → y < buf.height →
      (exportWithBg buf bg).pix x y =
        ⟨((resizeRGB bg buf.width buf.height).pix x y).r,
         ((resizeRGB bg buf.width buf.height).pix x y).g,
         ((resizeRGB bg buf.width buf.height).pix x y).b, 255⟩ ∧
      (exportNoBg buf).pix x y = white := by
  intro x y hx hy
  constructor
  · exact alphaCompositePixel_transparent _ _ rfl (h x y hx hy)
  · show (⟨blendChan 255 (buf.pix x y).r (buf.pix x y).a,
          blendChan 255 (buf.pix x y).g (buf.pix x y).a,
          blendChan 255 (buf.pix x y).b (buf.pix x y).a⟩ : RGB) = white
    rw [h x y hx hy, blendChan_zero, blendChan_zero, blendChan_zero]
    rfl

/-- Witness for C3 at a concrete fully transparent 2×2 buffer and a 7×5
background. -/
theorem c3_transparent_buffer_shows_background_witness :
    (exportWithBg demoBufClear demoBg).pix 1 1 =
      ⟨((resizeRGB demoBg demoBufClear.width demoBufClear.height).pix 1 1).r,
       ((resizeRGB demoBg demoBufClear.width demoBufClear.height).pix 1 1).g,
       ((resizeRGB demoBg demoBufClear.width demoBufClear.height).pix 1 1).b, 255⟩ ∧
    (exportNoBg demoBufClear).pix 1 1 = white :=
  c3_transparent_buffer_shows_background demoBufClear demoBg (fun _ _ _ _ => rfl) 1 1
    (by decide) (by decide)

/-- C4: with a background present, the background — never the buffer — is
resized to the buffer's width and height and converted to RGBA, the buffer
is alpha-composited on top with its own per-pixel alpha governing the blend
(alpha 255 yields the buffer pixel, alpha 0 yields the resized background
pixel), and the exported composite has the buffer's dimensions. -/
theorem c4_background_resized_and_composited (buf : Img) (bg : RGBImg) :
    (exportWithBg buf bg).width = buf.width ∧
    (exportWithBg buf bg).height = buf.height ∧
    (resizeRGB bg buf.width buf.height).width = buf.width ∧
    (resizeRGB bg buf.width buf.height).height = buf.height ∧
    (∀ x y, (exportWithBg buf bg).pix x y =
      alphaCompositePixel ((convertRGBA (resizeRGB bg buf.width buf.height)).pix x y)
        (buf.pix x y)) ∧
    (∀ x y, (buf.pix x y).a = 255 → (exportWithBg buf bg).pix x y = buf.pix x y) ∧
    (∀ x y, (buf.pix x y).a = 0 → (exportWithBg buf bg).pix x y =
      ⟨((resizeRGB bg buf.width buf.height).pix x y).r,
       ((resizeRGB bg buf.width buf.height).pix x y).g,
       ((resizeRGB bg buf.width buf.height).pix x y).b, 255⟩) := by
  refine ⟨rfl, rfl, rfl, rfl, fun x y => rfl, fun x y h => ?_, fun x y h => ?_⟩
  · exact alphaCompositePixel_opaque _ _ h
  · exact alphaCompositePixel_transparent _ _ rfl h

/-- Witness for C4: the composite of the 2×2 buffer over the 7×5 background
has the buffer's width. -/
theorem c4_background_resized_and_composited_witness :
    (exportWithBg demoBuf demoBg).width = demoBuf.width :=
  (c4_background_resized_and_composited demoBuf demoBg).1

/-- C5: with no background present, the compositor builds a solid base of
the buffer's dimensions whose colour is white (the fixed `'white'` fill of
`Image.new`), and pastes the buffer onto it with the buffer's alpha channel
as mask: every pixel is the mask-weighted blend of the white base and the
buffer colour, fully transparent pixels leave the base untouched, and fully
opaque pixels fully replace it. -/
theorem c5_no_background_masked_paste (buf : Img) :
    (exportNoBg buf).width = buf.width ∧
    (exportNoBg buf).height = buf.height ∧
    (∀ x y, (exportNoBg buf).pix x y =
      ⟨blendChan white.r (buf.pix x y).r (buf.pix x y).a,
       blendChan white.g (buf.pix x y).g (buf.pix x y).a,
       blendChan white.b (buf.pix x y).b (buf.pix x y).a⟩) ∧
    (∀ x y, (buf.pix x y).a = 0 → (exportNoBg buf).pix x y = white) ∧
    (∀ x y, (buf.pix x y).a = 255 → (exportNoBg buf).pix x y =
      ⟨(buf.pix x y).r, (buf.pix x y).g, (buf.pix x y).b⟩) := by
  refine ⟨rfl, rfl, fun x y => rfl, fun x y h => ?_, fun x y h => ?_⟩
  · show (⟨blendChan 255 (buf.pix x y).r (buf.pix x y).a,
          blendChan 255 (buf.pix x y).g (buf.pix x y).a,
          blendChan 255 (buf.pix x y).b (buf.pix x y).a⟩ : RGB) = white
    rw [h, blendChan_zero, blendChan_zero, blendChan_zero]
    rfl
  · show (⟨blendChan 255 (buf.pix x y).r (buf.pix x y).a,
          blendChan 255 (buf.pix x y).g (buf.pix x y).a,
          blendChan 255 (buf.pix x y).b (buf.pix x y).a⟩ : RGB) = _
    rw [h, blendChan_full, blendChan_full, blendChan_full]

/-- Witness for C5: the no-background export of the 2×2 opaque buffer has
the buffer's width, and its pixel (0,0) replaces the white base. -/
theorem c5_no_background_masked_paste_witness :
    (exportNoBg demoBuf).width = demoBuf.width ∧
    (exportNoBg demoBuf).pix 0 0 =
      ⟨(demoBuf.pix 0 0).r, (demoBuf.pix 0 0).g, (demoBuf.pix 0 0).b⟩ :=
  ⟨(c5_no_background_masked_paste demoBuf).1,
   (c5_no_background_masked_paste demoBuf).2.2.2.2 0 0 (by decide)⟩

/-- C8: in any session with a background image loaded, loading another
artwork replaces the background outright with that artwork's decoded image
(no merge, no history), and the explicit clear action resets the state to
no background. -/
theorem c8_background_replaced_outright (decode : String → RGBImg)
    (b : ArtworkRecord) (s : AppSession) (imgA : RGBImg)
    (_h : s.background_image_pil = some imgA) :
    (loadBackgroundAction decode b s).background_image_pil = some (decode b.image_url) ∧
    (clearBackgroundAction (loadBackgroundAction decode b s)).background_image_pil = none ∧
    (clearBackgroundAction s).background_image_pil = none :=
  ⟨rfl, rfl, rfl⟩

/-- Witness for C8 at a concrete session holding `demoBg`, a constant
decoder and the sample artwork. -/
theorem c8_background_replaced_outright_witness :
    (loadBackgroundAction (fun _ => demoBg) demoArt ⟨some demoBg⟩).background_image_pil =
      some ((fun _ => demoBg) demoArt.image_url) ∧
    (clearBackgroundAction
      (loadBackgroundAction (fun _ => demoBg) demoArt ⟨some demoBg⟩)).background_image_pil =
        none ∧
    (clearBackgroundAction ⟨some demoBg⟩).background_image_pil = none :=
  c8_background_replaced_outright (fun _ => demoBg) demoArt ⟨some demoBg⟩ demoBg rfl

/-- C9: the export/compositing path runs only when the canvas buffer exists
and has exactly 4 channels; a missing buffer or a 3-channel buffer produces
no composite at all. -/
theorem c9_export_runs_only_on_4_channels (bg : Option RGBImg) (raw : RawCanvas) :
    savePanel none bg = none ∧
    ((savePanel (some raw) bg).isSome = true ↔ raw.channels = 4) ∧
    (raw.channels = 3 → savePanel (some raw) bg = none) := by
  refine ⟨rfl, ?_, ?_⟩
  · by_cases h : raw.channels = 4
    · simp [savePanel, h]
    · simp [savePanel, h]
  · intro h
    simp [savePanel, h]

/-- Witness for C9: a concrete 3-channel canvas array is rejected. -/
theorem c9_export_runs_only_on_4_channels_witness :
    savePanel (some demoRaw3) none = none :=
  (c9_export_runs_only_on_4_channels none demoRaw3).2.2 (by decide)

/-- Once a key is cached, running any further calls issues no network
request for that key. -/
theorem netCount_runCalls_cached (net : String → Transport) (k : String) :
    ∀ (calls : List String) (c : CacheT), (assocFind c k).isSome = true →
      netCount k (runCalls net c calls).2 = 0 := by
  intro calls
  induction calls with
  | nil => intro c _; rfl
  | cons q rest ih =>
    intro c hc
    rcases hq : assocFind c q with _ | v
    · have hqk : q ≠ k := by
        intro heq
        rw [heq] at hq
        rw [hq] at hc
        simp at hc
      rcases hres : (get_artworks (net q)).result with e | v
      · simp [runCalls, cachedCall, hq, hres, netCount, hqk, ih c hc]
      · have hc2 : (assocFind ((q, v) :: c) k).isSome = true := by
          simp [assocFind, hqk, hc]
        simp [runCalls, cachedCall, hq, hres, netCount, hqk, ih _ hc2]
    · simp [runCalls, cachedCall, hq, netCount, ih c hc]

/-- At most one network request is issued per key across any call sequence,
provided `get_artworks` completes normally for that key. -/
theorem netCount_runCalls_le_one (net : String → Transport) (k : String)
    (hok : (get_artworks (net k)).result.isOk = true) :
    ∀ (calls : List String) (c : CacheT), netCount k (runCalls net c calls).2 ≤ 1 := by
  intro calls
  induction calls with
  | nil => intro c; simp [runCalls, netCount]
  | cons q rest ih =>
    intro c
    rcases hq : assocFind c q with _ | v
    · rcases hres : (get_artworks (net q)).result with e | v
      · have hqk : q ≠ k := by
          intro heq
          rw [heq] at hres
          rw [hres] at hok
          simp [Except.isOk, Except.toBool] at hok
        simp [runCalls, cachedCall, hq, hres, netCount, hqk, ih c]
      · by_cases hqk : q = k
        · subst hqk
          have hc2 : (assocFind ((q, v) :: c) q).isSome = true := by
            simp [assocFind]
          simp [runCalls, cachedCall, hq, hres, netCount,
            netCount_runCalls_cached net q rest _ hc2]
        · simp [runCalls, cachedCall, hq, hres, netCount, hqk, ih ((q, v) :: c)]
    · simp [runCalls, cachedCall, hq, netCount, ih c]

/-- Every call for key `k` in a trace returns exactly what `get_artworks`
computes for `k`, as long as the starting cache is consistent with the
network environment at `k`; in particular all cache hits return the
previously computed sequence. -/
theorem runCalls_result_stable (net : String → Transport) (k : String) :
    ∀ (calls : List String) (c : CacheT), goodCache net k c →
      ∀ e ∈ (runCalls net c calls).2, e.1 = k →
        e.2.1 = (get_artworks (net k)).result := by
  intro calls
  induction calls with
  | nil =>
    intro c _ e he
    simp [runCalls] at he
  | cons q rest ih =>
    intro c hgood e he hek
    rcases hq : assocFind c q with _ | v
    · rcases hres : (get_artworks (net q)).result with err | v
      · simp only [runCalls, cachedCall, hq, hres, List.mem_cons] at he
        rcases he with he | he
        · subst he
          simp only at hek
          rw [hek] at hres
          simp [hres]
        · exact ih c hgood e he hek
      · simp only [runCalls, cachedCall, hq, hres, List.mem_cons] at he
        rcases he with he | he
        · subst he
          simp only at hek
          rw [hek] at hres
          simp [hres]
        · have hgood2 : goodCache net k ((q, v) :: c) := by
            intro w hw
            by_cases hqk : q = k
            · subst hqk
              simp [assocFind] at hw
              rw [← hw]
              exact hres
            · simp [assocFind, hqk] at hw
              exact hgood w hw
          exact ih _ hgood2 e he hek
    · simp only [runCalls, cachedCall, hq, List.mem_cons] at he
      rcases he with he | he
      · subst he
        simp only at hek
        rw [hek] at hq
        exact (hgood v hq).symm
      · exact ih c hgood e he hek

/-- C6, as frozen, is refuted when `get_artworks` raises for the key:
`@st.cache_data` caches nothing on an uncaught exception, so two calls with
the identical artist-name string against a response body missing the
`'data'` key (an uncaught `KeyError`) issue two network requests. -/
theorem c6_counterexample :
    netCount "Vincent van Gogh"
      (runCalls (fun _ => .success ⟨none⟩) []
        ["Vincent van Gogh", "Vincent van Gogh"]).2 = 2 := by
  decide

/-- C6 (amended): across any sequence of fetch calls within one process
lifetime (starting from the empty cache), provided `get_artworks` completes
normally for a given artist-name string (returns rather than raising), at
most one network request is issued for that string, and every call with
that exact string returns the sequence `get_artworks` computes for it — in
particular a repeated call is served from the cache with the previously
computed sequence. -/
theorem c6_cache_at_most_one_network_call (net : String → Transport)
    (calls : List String) (k : String)
    (hok : (get_artworks (net k)).result.isOk = true) :
    netCount k (runCalls net [] calls).2 ≤ 1 ∧
    ∀ e ∈ (runCalls net [] calls).2, e.1 = k →
      e.2.1 = (get_artworks (net k)).result :=
  ⟨netCount_runCalls_le_one net k hok calls [],
   runCalls_result_stable net k calls []
     (fun v hv => by simp [assocFind] at hv)⟩

/-- Witness for C6: two identical calls against the sample network issue at
most one network request for that artist name. -/
theorem c6_cache_at_most_one_network_call_witness :
    netCount "Vincent van Gogh"
      (runCalls demoNet [] ["Vincent van Gogh", "Vincent van Gogh"]).2 ≤ 1 :=
  (c6_cache_at_most_one_network_call demoNet ["Vincent van Gogh", "Vincent van Gogh"]
    "Vincent van Gogh" (by decide)).1

end ArtApp
